import Mathlib

/-!
Verification of the ASR_app audio pipeline against its specification.

The definitions below are a shallow embedding of the Python source:

* `src/models/app_state.py` — `AppState`, `StateManager.set_state` and the
  state predicates;
* `src/models/audio_processor.py` — `start_recording`, `stop_recording`,
  `toggle_pause`, `_record_frame` (queue push and volume publish),
  `save_recording`, `get_volume_level`, `_simulate_audio_thread`;
* `src/models/transcription_service.py` — `update_performance_metrics`,
  `track_processing_time`;
* `src/utils/event_emitter.py` — `EventEmitter.on` / `EventEmitter.emit`;
* `src/controllers/app_controller.py` — construction of the frame queue.

Pure functions are embedded as Lean functions; the mutable objects
(`StateManager`, `AudioProcessor`, queues, the metrics dictionary, the
listener dictionary, the file system touched by `save_recording`) are
embedded as explicit state passed in and out.  Wall-clock durations and
dB samples are modelled as rationals.  Thread interleavings relevant to
the claims (an external `stop_simulation`, an exception inside a loop
iteration) are modelled as explicit per-iteration schedules.
-/

/-- Application states, from the `AppState` enum in `src/models/app_state.py`. -/
inductive AppState where
  | IDLE
  | RECORDING
  | RECORDING_PAUSED
  | PLAYING
  | SIMULATING
deriving DecidableEq, Repr

/-- The transition table of `StateManager.set_state`
(`valid_transitions` in `src/models/app_state.py`, lines 51 to 57). -/
def validTransitions : AppState → List AppState
  | .IDLE => [.RECORDING, .PLAYING, .SIMULATING]
  | .RECORDING => [.IDLE, .RECORDING_PAUSED]
  | .RECORDING_PAUSED => [.RECORDING, .IDLE]
  | .PLAYING => [.IDLE]
  | .SIMULATING => [.IDLE]

/-- State of a `StateManager` object: the current state and the optional
change callback (callbacks are abstracted to numeric identifiers). -/
structure StateManager where
  current_state : AppState
  callback : Option Nat
deriving DecidableEq, Repr

/-- Result of one `set_state` call: the returned boolean, the manager
after the call, and the callback invocations performed (each one is the
callback identifier with the `(old_state, new_state)` pair passed to it). -/
structure SetStateOut where
  ok : Bool
  mgr : StateManager
  calls : List (Nat × AppState × AppState)
deriving DecidableEq, Repr

/-- Embedding of `StateManager.set_state` (`src/models/app_state.py`,
lines 40 to 75): reject and keep the state when the edge is not in the
table, otherwise assign the new state, notify the callback if one is
registered with `(old_state, new_state)`, and return `true`. -/
def set_state (m : StateManager) (new : AppState) : SetStateOut :=
  if new ∈ validTransitions m.current_state then
    { ok := true
      mgr := { m with current_state := new }
      calls := match m.callback with
        | some cb => [(cb, m.current_state, new)]
        | none => [] }
  else
    { ok := false, mgr := m, calls := [] }

/-- Embedding of `StateManager.is_recording`:
membership in `[RECORDING, RECORDING_PAUSED]`. -/
def is_recording (s : AppState) : Bool :=
  s ∈ [AppState.RECORDING, AppState.RECORDING_PAUSED]

/-- Embedding of `StateManager.is_playing`. -/
def is_playing (s : AppState) : Bool :=
  s = AppState.PLAYING

/-- Embedding of `StateManager.is_simulating`. -/
def is_simulating (s : AppState) : Bool :=
  s = AppState.SIMULATING

/-- The sequence of states observed after each call in a sequence of
`set_state` calls (the manager is threaded through the calls). -/
def state_trace (m : StateManager) : List AppState → List AppState
  | [] => []
  | new :: rest =>
      let o := set_state m new
      o.mgr.current_state :: state_trace o.mgr rest

/-- A step of the trace either leaves the state unchanged or follows a
transition-table edge. -/
def EdgeOrStay (a b : AppState) : Prop :=
  a = b ∨ b ∈ validTransitions a

/-- State of an `AudioProcessor` object
(`src/models/audio_processor.py`), restricted to the fields the
recording entry points touch: the state manager, the session frame
buffer, the recording start timestamp, the bound output queue
(abstracted to an identifier), the number of capture threads spawned
(each spawned capture thread opens exactly one hardware input stream),
and the stop event flag. -/
structure AudioProcessor where
  mgr : StateManager
  frames : List String
  start_time : ℚ
  audio_queue : Option Nat
  threads_spawned : Nat
  stop_event : Bool
deriving DecidableEq, Repr

/-- Embedding of `AudioProcessor.start_recording`
(`src/models/audio_processor.py`, lines 66 to 83): if the transition to
Recording is rejected, return false immediately with nothing mutated;
otherwise clear the frame buffer, clear the stop event, bind the input
queue, record the start timestamp, spawn the capture thread, and return
true.  `now` is the value `time.time()` returns at the call. -/
def start_recording (ap : AudioProcessor) (input_queue : Nat) (now : ℚ) :
    Bool × AudioProcessor :=
  let o := set_state ap.mgr AppState.RECORDING
  if o.ok = false then (false, ap)
  else
    (true,
      { mgr := o.mgr
        frames := []
        start_time := now
        audio_queue := some input_queue
        threads_spawned := ap.threads_spawned + 1
        stop_event := false })

/-- Embedding of `AudioProcessor.stop_recording`
(`src/models/audio_processor.py`, lines 85 to 112): if `is_recording()`
is false, warn and return false; otherwise set the state to Idle, join
the capture thread and close the stream, and return true. -/
def stop_recording (ap : AudioProcessor) : Bool × AudioProcessor :=
  if is_recording ap.mgr.current_state = false then (false, ap)
  else
    let o := set_state ap.mgr AppState.IDLE
    (true, { ap with mgr := o.mgr })

/-- Embedding of `AudioProcessor.toggle_pause`
(`src/models/audio_processor.py`, lines 114 to 129): Recording moves to
RecordingPaused and RecordingPaused back to Recording, both returning
true; from any other state nothing happens, a warning is logged, and
false is returned. -/
def toggle_pause (ap : AudioProcessor) : Bool × AudioProcessor :=
  if ap.mgr.current_state = AppState.RECORDING then
    (true, { ap with mgr := (set_state ap.mgr AppState.RECORDING_PAUSED).mgr })
  else if ap.mgr.current_state = AppState.RECORDING_PAUSED then
    (true, { ap with mgr := (set_state ap.mgr AppState.RECORDING).mgr })
  else
    (false, ap)

/-- Iterated `toggle_pause`: the processor after `n` calls together with
the list of returned booleans. -/
def toggle_pause_iter (ap : AudioProcessor) : Nat → AudioProcessor × List Bool
  | 0 => (ap, [])
  | n + 1 =>
      let r := toggle_pause ap
      let rest := toggle_pause_iter r.2 n
      (rest.1, r.1 :: rest.2)


/-- A Python `queue.Queue` holding elements of type `α`: `maxsize` is
`none` when the queue is unbounded (`queue.Queue()` is constructed with
`maxsize = 0`, meaning no bound), and `items` lists the queued elements
front first. -/
structure PyQueue (α : Type) where
  maxsize : Option Nat
  items : List α
deriving DecidableEq, Repr

/-- Whether a `queue.Queue` is full: an unbounded queue never is; a
bounded one is full when it holds at least `maxsize` elements. -/
def pyQueueFull {α : Type} (q : PyQueue α) : Bool :=
  match q.maxsize with
  | none => false
  | some c => c ≤ q.items.length

/-- Outcome of a put on a `queue.Queue`: the element was enqueued at the
back, the call blocked (blocking put on a full queue waits for space and
never raises `queue.Full`), or the call raised `queue.Full`
(non-blocking put on a full queue). -/
inductive PutOutcome (α : Type) where
  | enqueued (q : PyQueue α)
  | blocked
  | raisedFull
deriving DecidableEq, Repr

/-- Semantics of the blocking `Queue.put(item)` used by the source
(no `block=False`, no timeout): enqueue when space is available,
otherwise wait; such a call never raises `queue.Full`. -/
def pyQueuePut {α : Type} (q : PyQueue α) (x : α) : PutOutcome α :=
  if pyQueueFull q then PutOutcome.blocked
  else PutOutcome.enqueued { q with items := q.items ++ [x] }

/-- Semantics of `Queue.put_nowait(item)`: enqueue when space is
available, otherwise raise `queue.Full` immediately. -/
def pyQueuePutNowait {α : Type} (q : PyQueue α) (x : α) : PutOutcome α :=
  if pyQueueFull q then PutOutcome.raisedFull
  else PutOutcome.enqueued { q with items := q.items ++ [x] }

/-- The frame queue as constructed by `AppController.__init__`
(`src/controllers/app_controller.py`, line 25): `queue.Queue()`, an
unbounded queue, initially empty. -/
def app_controller_audio_queue : PyQueue String :=
  { maxsize := none, items := [] }

/-- Embedding of the frame push of `AudioProcessor._record_frame`
(`src/models/audio_processor.py`, lines 182 to 185):
`self.audio_queue.put(data)` inside `try/except queue.Full`, where the
handler logs the warning about dropping the frame.  The put is the
blocking form, which never raises `queue.Full`, so the `except` branch
runs only when the put outcome is `raisedFull` and the returned flag
records whether the drop warning was logged. -/
def record_frame_push (q : PyQueue String) (data : String) :
    PutOutcome String × Bool :=
  match pyQueuePut q data with
  | PutOutcome.raisedFull => (PutOutcome.raisedFull, true)
  | r => (r, false)

/-- Embedding of the volume publish of `AudioProcessor._record_frame`
(`src/models/audio_processor.py`, lines 194 to 199):
`self.volume_queue.put_nowait(volume)` inside `try/except queue.Full`
whose handler executes the blocking `self.volume_queue.put(volume)`
(the `get_nowait` that would discard the old sample is commented out in
the source). -/
def volume_publish (q : PyQueue ℚ) (volume : ℚ) : PutOutcome ℚ :=
  match pyQueuePutNowait q volume with
  | PutOutcome.raisedFull => pyQueuePut q volume
  | r => r

/-- Embedding of `AudioProcessor.get_volume_level`
(`src/models/audio_processor.py`, lines 537 to 544):
`volume_queue.get_nowait()` with `except queue.Empty: return None`,
that is, a non-blocking read returning the front sample or `none`. -/
def get_volume_level (q : PyQueue ℚ) : Option ℚ × PyQueue ℚ :=
  match q.items with
  | [] => (none, q)
  | v :: rest => (some v, { q with items := rest })

/-- Value stored under one key of the performance-metrics dictionary of
`TranscriptionService`: a number (counter or gauge) or a list of numbers
(time series). -/
inductive MetricVal where
  | num (v : ℚ)
  | series (vs : List ℚ)
deriving DecidableEq, Repr

/-- The performance-metrics dictionary, as an insertion-ordered
association list from metric name to value. -/
def PerfMetrics : Type := List (String × MetricVal)

/-- Dictionary lookup. -/
def lookupMetric (m : PerfMetrics) (name : String) : Option MetricVal :=
  match m with
  | [] => none
  | (n, v) :: rest => if n = name then some v else lookupMetric rest name

/-- Dictionary store (`dict[name] = v`): overwrite in place when the key
exists, append otherwise. -/
def setMetric (m : PerfMetrics) (name : String) (v : MetricVal) : PerfMetrics :=
  match m with
  | [] => [(name, v)]
  | (n, w) :: rest =>
      if n = name then (n, v) :: rest else (n, w) :: setMetric rest name v

/-- Dictionary `pop(name, None)`: remove the key when present. -/
def popMetric (m : PerfMetrics) (name : String) : PerfMetrics :=
  match m with
  | [] => []
  | (n, w) :: rest => if n = name then rest else (n, w) :: popMetric rest name

/-- Model of the Python `str.endswith` test, on the character lists
underlying the strings. -/
def pyEndsWith (s suffix : String) : Bool :=
  suffix.data.isSuffixOf s.data

/-- Model of the Python `str.startswith` test. -/
def pyStartsWith (s pre : String) : Bool :=
  pre.data.isPrefixOf s.data

/-- Model of the Python slice `s[:-1]` dropping the final character. -/
def pyDropLast (s : String) : String :=
  String.mk s.data.dropLast

/-- The initial metrics dictionary of `TranscriptionService.__init__`
(`src/models/transcription_service.py`, lines 30 to 32). -/
def initial_performance_metrics : PerfMetrics :=
  [("NO METRICS INITIALIZED", MetricVal.num 0)]

/-- Embedding of `TranscriptionService.update_performance_metrics`
(`src/models/transcription_service.py`, lines 120 to 161) for a numeric
`value`.  The branches are checked in source order: a name ending in
`_times` appends to a list and refreshes the matching `avg_` entry; a
name ending in `_time` stores the value; a name starting with `total_`
or ending in `_count` adds to the existing value; any other name stores
the value.  Afterwards the `NO METRICS INITIALIZED` placeholder is
popped.  (The `update_ui` emission is not modelled; it does not touch
the dictionary.) -/
def update_performance_metrics (m : PerfMetrics) (metric_name : String)
    (value : ℚ) : PerfMetrics :=
  let m1 :=
    if pyEndsWith metric_name "_times" then
      let vs :=
        (match lookupMetric m metric_name with
          | some (MetricVal.series vs) => vs
          | _ => []) ++ [value]
      let m' := setMetric m metric_name (MetricVal.series vs)
      let avg_metric_name := "avg_" ++ pyDropLast metric_name
      setMetric m' avg_metric_name (MetricVal.num (vs.sum / vs.length))
    else if pyEndsWith metric_name "_time" then
      setMetric m metric_name (MetricVal.num value)
    else if pyStartsWith metric_name "total_" || pyEndsWith metric_name "_count" then
      let cur :=
        match lookupMetric m metric_name with
        | some (MetricVal.num v) => v
        | _ => 0
      setMetric m metric_name (MetricVal.num (cur + value))
    else
      setMetric m metric_name (MetricVal.num value)
  popMetric m1 "NO METRICS INITIALIZED"

/-- Embedding of `TranscriptionService.track_processing_time`
(`src/models/transcription_service.py`, lines 163 to 188), abstracting
the timed call to its measured duration `t`: it updates the metric
`<op>_time` with `t`, then `total_<op>_time` with `t`, then `<op>_calls`
with `1`. -/
def track_processing_time (m : PerfMetrics) (operation_name : String)
    (t : ℚ) : PerfMetrics :=
  let m1 := update_performance_metrics m (operation_name ++ "_time") t
  let m2 := update_performance_metrics m1 ("total_" ++ operation_name ++ "_time") t
  update_performance_metrics m2 (operation_name ++ "_calls") 1

/-- Events published on the `EventEmitter` by the audio processor. -/
inductive Ev where
  | status (msg : String)
  | error (msg : String)
  | transcription (msg : String)
  | simulationEnded
deriving DecidableEq, Repr

/-- File system fragment touched by `save_recording`: an association
list from path to the list of frames whose bytes the file holds. -/
def FileSys : Type := List (String × List String)

/-- File lookup by path. -/
def lookupFile (fs : FileSys) (path : String) : Option (List String) :=
  match fs with
  | [] => none
  | (p, c) :: rest => if p = path then some c else lookupFile rest path

/-- Store a file at a path, overwriting any existing one. -/
def writeFile (fs : FileSys) (path : String) (content : List String) : FileSys :=
  match fs with
  | [] => [(path, content)]
  | (p, c) :: rest =>
      if p = path then (p, content) :: rest
      else (p, c) :: writeFile rest path content

/-- Failure mode of the `wave` write in `save_recording`: the open
itself raises (no file is created), or the write raises after the first
`k` frames reached the file (the `with` block closes the handle and the
partial file stays on disk). -/
inductive SaveFailure where
  | openFail
  | writeFail (k : Nat)
deriving DecidableEq, Repr

/-- Embedding of `AudioProcessor.save_recording`
(`src/models/audio_processor.py`, lines 476 to 501).  With no buffered
frames it emits an `error` event and returns false before touching the
file system.  Otherwise it writes the joined frames to `file_path`
inside `try/except`; `failure` selects whether and where the underlying
write raises.  On an exception the handler emits an `error` event and
returns false; nothing removes a partially written file.  Returns the
boolean result, the events emitted, and the resulting file system. -/
def save_recording (frames : List String) (file_path : String)
    (failure : Option SaveFailure) (fs : FileSys) :
    Bool × List Ev × FileSys :=
  if frames = [] then
    (false, [Ev.error "No audio to save."], fs)
  else
    match failure with
    | some SaveFailure.openFail =>
        (false, [Ev.error "Error saving recording"], fs)
    | some (SaveFailure.writeFail k) =>
        (false, [Ev.error "Error saving recording"],
          writeFile fs file_path (frames.take k))
    | none =>
        (true, [Ev.status ("Recording saved to " ++ file_path)],
          writeFile fs file_path frames)

/-- One iteration of the simulation loop as seen by
`_simulate_audio_thread`: whether another thread moved the state to Idle
before this iteration checks `is_simulating()` (an external
`stop_simulation`), whether processing this chunk raises an exception,
and the transcript carried by the chunk result when `result[0]` is not
`None`. -/
structure SimIter where
  externalStop : Bool
  raises : Bool
  transcript : Option String
deriving DecidableEq, Repr

/-- The simulation loop of `_simulate_audio_thread`
(`src/models/audio_processor.py`, lines 400 to 426).  The iteration list
plays the role of the file contents: an empty list means `readframes`
returns no data and the loop breaks.  Returns the state when the loop is
left, the events emitted inside the loop, and whether the loop was left
by an exception. -/
def sim_loop (m : StateManager) : List SimIter → StateManager × List Ev × Bool
  | [] => (m, [], false)
  | it :: rest =>
      let m1 := if it.externalStop then (set_state m AppState.IDLE).mgr else m
      if is_simulating m1.current_state then
        if it.raises then (m1, [], true)
        else
          let evs :=
            match it.transcript with
            | some t => [Ev.transcription t]
            | none => []
          let r := sim_loop m1 rest
          (r.1, evs ++ r.2.1, r.2.2)
      else
        (m1, [], false)

/-- Result of a full run of `_simulate_audio_thread`. -/
structure SimResult where
  mgr : StateManager
  events : List Ev
  fileOpened : Bool
  fileClosed : Bool
deriving DecidableEq, Repr

/-- The `finally` block of `_simulate_audio_thread`
(`src/models/audio_processor.py`, lines 435 to 449): if the state is
still Simulating, set it to Idle; emit `simulation_ended`; close the
file handle when one was opened.  The trailing self-join is a no-op for
the thread running the block. -/
def sim_finally (m : StateManager) (evs : List Ev) (opened : Bool) : SimResult :=
  let m1 :=
    if is_simulating m.current_state then (set_state m AppState.IDLE).mgr else m
  { mgr := m1
    events := evs ++ [Ev.simulationEnded]
    fileOpened := opened
    fileClosed := opened }

/-- Embedding of `AudioProcessor._simulate_audio_thread`
(`src/models/audio_processor.py`, lines 378 to 449).  `prepFails` states
that `_audio_consistency_check` or `wave.open` raises, in which case no
file handle exists yet; otherwise the file is opened, the streaming
status is emitted and the loop runs over `iters`.  An exception caught
by the `except` clause emits an `error` event; the `finally` block of
`sim_finally` always runs. -/
def simulate_audio_thread (m : StateManager) (prepFails : Bool)
    (iters : List SimIter) : SimResult :=
  if prepFails then
    sim_finally m [Ev.error "Error in simulation"] false
  else
    let r := sim_loop m iters
    if r.2.2 then
      sim_finally r.1
        ([Ev.status "Streaming simulated audio..."] ++ r.2.1 ++
          [Ev.error "Error in simulation"]) true
    else
      let doneEvs :=
        if is_simulating r.1.current_state then [Ev.status "Simulation completed."]
        else []
      sim_finally r.1
        ([Ev.status "Streaming simulated audio..."] ++ r.2.1 ++ doneEvs) true

/-- Count of the terminal `simulation_ended` notifications in an event
list. -/
def countSimEnded (evs : List Ev) : Nat :=
  (evs.filter (fun e => e = Ev.simulationEnded)).length

/-- The listener dictionary of `EventEmitter`
(`src/utils/event_emitter.py`): an insertion-ordered association list
from event name to the callbacks registered for it, callbacks abstracted
to numeric identifiers. -/
def Listeners : Type := List (String × List Nat)

/-- Lookup of the callback list registered for an event name. -/
def lookupListeners (l : Listeners) (event_name : String) : Option (List Nat) :=
  match l with
  | [] => none
  | (n, cbs) :: rest =>
      if n = event_name then some cbs else lookupListeners rest event_name

/-- Embedding of `EventEmitter.on` (`src/utils/event_emitter.py`,
lines 9 to 12): create an empty list for a new event name, then append
the callback. -/
def emitter_on (l : Listeners) (event_name : String) (cb : Nat) : Listeners :=
  match l with
  | [] => [(event_name, [cb])]
  | (n, cbs) :: rest =>
      if n = event_name then (n, cbs ++ [cb]) :: rest
      else (n, cbs) :: emitter_on rest event_name cb

/-- Embedding of `EventEmitter.emit` (`src/utils/event_emitter.py`,
lines 14 to 20) with the callback invocations made explicit: when the
event name is registered, each callback in its list is invoked once, in
list order, with the emitted arguments; otherwise nothing runs.  The
listener dictionary is returned unchanged alongside the invocation
list. -/
def emitter_emit {A : Type} (l : Listeners) (event_name : String) (args : A) :
    Listeners × List (Nat × A) :=
  match lookupListeners l event_name with
  | none => (l, [])
  | some cbs => (l, cbs.map (fun cb => (cb, args)))

/-- The callbacks a listener dictionary holds for an event name
(empty when the name is not registered). -/
def callbacksFor (l : Listeners) (event_name : String) : List Nat :=
  (lookupListeners l event_name).getD []

/-- A listener dictionary built by a sequence of `on` registrations,
given as `(event_name, callback)` pairs in call order. -/
def registerAll (regs : List (String × Nat)) : Listeners :=
  regs.foldl (fun l r => emitter_on l r.1 r.2) []

/-! ## Theorems -/

theorem state_trace_chain (m : StateManager) (calls : List AppState) :
    List.Chain' EdgeOrStay (m.current_state :: state_trace m calls) := by
  induction calls generalizing m with
  | nil => simp [state_trace]
  | cons new rest ih =>
      have hstep : EdgeOrStay m.current_state (set_state m new).mgr.current_state := by
        unfold set_state
        split
        · exact Or.inr (by assumption)
        · exact Or.inl rfl
      simpa [state_trace, List.chain'_cons] using And.intro hstep (ih (set_state m new).mgr)

/-- C1: starting from Idle, every sequence of `set_state` calls moves the
current state only along transition-table edges; a call whose edge is not
in the table returns false and leaves the state and callback untouched,
and a call whose edge is in the table assigns the new state, invokes the
registered change callback with `(old, new)`, and returns true. -/
theorem set_state_transition_discipline :
    (∀ (cb : Option Nat) (calls : List AppState),
      List.Chain' EdgeOrStay
        (AppState.IDLE :: state_trace ⟨AppState.IDLE, cb⟩ calls)) ∧
    (∀ (m : StateManager) (new : AppState),
      ((set_state m new).ok = false →
        (set_state m new).mgr = m ∧ (set_state m new).calls = [] ∧
        new ∉ validTransitions m.current_state) ∧
      ((set_state m new).ok = true →
        new ∈ validTransitions m.current_state ∧
        (set_state m new).mgr.current_state = new ∧
        (∀ cb, m.callback = some cb →
          (set_state m new).calls = [(cb, m.current_state, new)]) ∧
        (m.callback = none → (set_state m new).calls = []))) := by
  constructor
  · intro cb calls
    exact state_trace_chain ⟨AppState.IDLE, cb⟩ calls
  · intro m new
    constructor
    · intro hok
      unfold set_state at *
      split at hok
      · simp at hok
      · refine ⟨by simp [set_state, *], by simp [set_state, *], by assumption⟩
    · intro hok
      unfold set_state at *
      split at hok
      · refine ⟨by assumption, by simp [set_state, *], ?_, ?_⟩
        · intro cb hcb
          simp [set_state, *]
        · intro hcb
          simp [set_state, *]
      · simp at hok

theorem toggle_pause_of_recording (ap : AudioProcessor)
    (h : ap.mgr.current_state = AppState.RECORDING) :
    toggle_pause ap =
      (true, { ap with mgr := { ap.mgr with current_state := AppState.RECORDING_PAUSED } }) := by
  simp [toggle_pause, set_state, h, validTransitions]

theorem toggle_pause_of_paused (ap : AudioProcessor)
    (h : ap.mgr.current_state = AppState.RECORDING_PAUSED) :
    toggle_pause ap =
      (true, { ap with mgr := { ap.mgr with current_state := AppState.RECORDING } }) := by
  simp [toggle_pause, set_state, h, validTransitions]

theorem toggle_pause_iter_succ (ap : AudioProcessor) (n : Nat) :
    toggle_pause_iter ap (n + 1)
      = ((toggle_pause_iter (toggle_pause ap).2 n).1,
         (toggle_pause ap).1 :: (toggle_pause_iter (toggle_pause ap).2 n).2) := rfl

theorem toggle_pause_iter_parity (n : Nat) :
    ∀ ap : AudioProcessor,
      (ap.mgr.current_state = AppState.RECORDING →
        (toggle_pause_iter ap n).2 = List.replicate n true ∧
        (toggle_pause_iter ap n).1.mgr.current_state =
          (if n % 2 = 0 then AppState.RECORDING else AppState.RECORDING_PAUSED)) ∧
      (ap.mgr.current_state = AppState.RECORDING_PAUSED →
        (toggle_pause_iter ap n).2 = List.replicate n true ∧
        (toggle_pause_iter ap n).1.mgr.current_state =
          (if n % 2 = 0 then AppState.RECORDING_PAUSED else AppState.RECORDING)) := by
  induction n with
  | zero =>
      intro ap
      constructor <;> intro h <;> simp [toggle_pause_iter, h]
  | succ n ih =>
      intro ap
      constructor
      · intro h
        have hrest :=
          (ih { ap with mgr := { ap.mgr with current_state := AppState.RECORDING_PAUSED } }).2 rfl
        rw [toggle_pause_iter_succ ap n, toggle_pause_of_recording ap h]
        refine ⟨by simp [hrest.1, List.replicate_succ], ?_⟩
        rw [show ((toggle_pause_iter { ap with mgr := { ap.mgr with current_state := AppState.RECORDING_PAUSED } } n).1,
              (true :: (toggle_pause_iter { ap with mgr := { ap.mgr with current_state := AppState.RECORDING_PAUSED } } n).2)).1
            = (toggle_pause_iter { ap with mgr := { ap.mgr with current_state := AppState.RECORDING_PAUSED } } n).1 from rfl,
          hrest.2]
        rcases Nat.mod_two_eq_zero_or_one n with h2 | h2
        · have h3 : (n + 1) % 2 = 1 := by omega
          simp [h2, h3]
        · have h3 : (n + 1) % 2 = 0 := by omega
          simp [h2, h3]
      · intro h
        have hrest :=
          (ih { ap with mgr := { ap.mgr with current_state := AppState.RECORDING } }).1 rfl
        rw [toggle_pause_iter_succ ap n, toggle_pause_of_paused ap h]
        refine ⟨by simp [hrest.1, List.replicate_succ], ?_⟩
        rw [show ((toggle_pause_iter { ap with mgr := { ap.mgr with current_state := AppState.RECORDING } } n).1,
              (true :: (toggle_pause_iter { ap with mgr := { ap.mgr with current_state := AppState.RECORDING } } n).2)).1
            = (toggle_pause_iter { ap with mgr := { ap.mgr with current_state := AppState.RECORDING } } n).1 from rfl,
          hrest.2]
        rcases Nat.mod_two_eq_zero_or_one n with h2 | h2
        · have h3 : (n + 1) % 2 = 1 := by omega
          simp [h2, h3]
        · have h3 : (n + 1) % 2 = 0 := by omega
          simp [h2, h3]

/-- C9: restricted to Recording and RecordingPaused, `toggle_pause` is an
involution: an even number of applications starting from Recording ends
in Recording, an odd number in RecordingPaused, each call returning
true; from any other state it returns false and changes nothing. -/
theorem toggle_pause_involution :
    (∀ (ap : AudioProcessor) (n : Nat),
      ap.mgr.current_state = AppState.RECORDING →
      (toggle_pause_iter ap n).2 = List.replicate n true ∧
      (toggle_pause_iter ap n).1.mgr.current_state =
        (if n % 2 = 0 then AppState.RECORDING else AppState.RECORDING_PAUSED)) ∧
    (∀ ap : AudioProcessor,
      ap.mgr.current_state ≠ AppState.RECORDING →
      ap.mgr.current_state ≠ AppState.RECORDING_PAUSED →
      toggle_pause ap = (false, ap)) := by
  constructor
  · intro ap n h
    exact (toggle_pause_iter_parity n ap).1 h
  · intro ap h1 h2
    simp [toggle_pause, h1, h2]

/-- Concrete instantiation of the involution: three toggles from
Recording return true each time and land on RecordingPaused, and a
toggle from Idle is a rejected no-op. -/
theorem toggle_pause_involution_witness :
    (toggle_pause_iter ⟨⟨AppState.RECORDING, none⟩, [], 0, none, 1, false⟩ 3).2
      = [true, true, true] ∧
    (toggle_pause_iter ⟨⟨AppState.RECORDING, none⟩, [], 0, none, 1, false⟩ 3).1.mgr.current_state
      = AppState.RECORDING_PAUSED ∧
    toggle_pause ⟨⟨AppState.IDLE, none⟩, [], 0, none, 0, false⟩
      = (false, ⟨⟨AppState.IDLE, none⟩, [], 0, none, 0, false⟩) := by
  have h1 := toggle_pause_involution.1 ⟨⟨AppState.RECORDING, none⟩, [], 0, none, 1, false⟩ 3 rfl
  have h2 := toggle_pause_involution.2 ⟨⟨AppState.IDLE, none⟩, [], 0, none, 0, false⟩
    (by decide) (by decide)
  exact ⟨by simpa using h1.1, by simpa using h1.2, h2⟩

/-- C5: `stop_recording` from a state that is not Recording or
RecordingPaused returns false and changes nothing; `is_recording`
counts RecordingPaused as recording, a stop from RecordingPaused
succeeds and lands on Idle, and the pause-then-stop scenario from Idle
returns true at every step and ends in Idle. -/
theorem stop_recording_guard :
    (∀ ap : AudioProcessor,
      is_recording ap.mgr.current_state = false → stop_recording ap = (false, ap)) ∧
    is_recording AppState.RECORDING_PAUSED = true ∧
    (∀ ap : AudioProcessor,
      ap.mgr.current_state = AppState.RECORDING_PAUSED →
      (stop_recording ap).1 = true ∧
      (stop_recording ap).2.mgr.current_state = AppState.IDLE) ∧
    (∀ (ap : AudioProcessor) (q : Nat) (now : ℚ),
      ap.mgr.current_state = AppState.IDLE →
      (start_recording ap q now).1 = true ∧
      (start_recording ap q now).2.mgr.current_state = AppState.RECORDING ∧
      (toggle_pause (start_recording ap q now).2).1 = true ∧
      (toggle_pause (start_recording ap q now).2).2.mgr.current_state
        = AppState.RECORDING_PAUSED ∧
      (stop_recording (toggle_pause (start_recording ap q now).2).2).1 = true ∧
      (stop_recording (toggle_pause (start_recording ap q now).2).2).2.mgr.current_state
        = AppState.IDLE) := by
  refine ⟨?_, by decide, ?_, ?_⟩
  · intro ap h
    simp [stop_recording, h]
  · intro ap h
    constructor <;> simp [stop_recording, is_recording, set_state, validTransitions, h]
  · intro ap q now h
    have hstart : start_recording ap q now =
        (true, ⟨{ ap.mgr with current_state := AppState.RECORDING }, [], now,
          some q, ap.threads_spawned + 1, false⟩) := by
      simp [start_recording, set_state, h, validTransitions]
    rw [hstart]
    refine ⟨rfl, rfl, ?_⟩
    rw [toggle_pause_of_recording _ rfl]
    refine ⟨rfl, rfl, ?_⟩
    constructor <;>
      simp [stop_recording, is_recording, set_state, validTransitions]

/-- Concrete instantiation of the stop-recording contract: a stop from
Playing is a rejected no-op, and start, pause, stop from Idle succeeds
and ends in Idle. -/
theorem stop_recording_guard_witness :
    stop_recording ⟨⟨AppState.PLAYING, none⟩, [], 0, none, 0, false⟩
      = (false, ⟨⟨AppState.PLAYING, none⟩, [], 0, none, 0, false⟩) ∧
    (stop_recording (toggle_pause
        (start_recording ⟨⟨AppState.IDLE, none⟩, [], 0, none, 0, false⟩ 5 2).2).2).1
      = true ∧
    (stop_recording (toggle_pause
        (start_recording ⟨⟨AppState.IDLE, none⟩, [], 0, none, 0, false⟩ 5 2).2).2).2.mgr.current_state
      = AppState.IDLE := by
  have h1 := stop_recording_guard.1 ⟨⟨AppState.PLAYING, none⟩, [], 0, none, 0, false⟩ (by decide)
  have h2 := stop_recording_guard.2.2.2 ⟨⟨AppState.IDLE, none⟩, [], 0, none, 0, false⟩ 5 2 rfl
  exact ⟨h1, h2.2.2.2.2.1, h2.2.2.2.2.2⟩

/-- C6 counterexample: a second `start_recording` with no intervening
stop is not always rejected.  From Idle, `start_recording` then
`toggle_pause` then `start_recording` has the second start return true
— `RECORDING_PAUSED` to `RECORDING` is a transition-table edge — and
spawn a second capture thread, so a second hardware input stream is
opened while the first is still open. -/
theorem start_recording_paused_restart_accepted :
    (start_recording
        (toggle_pause
          (start_recording ⟨⟨AppState.IDLE, none⟩, [], 0, none, 0, false⟩ 4 11).2).2
        6 12).1 = true ∧
    (start_recording
        (toggle_pause
          (start_recording ⟨⟨AppState.IDLE, none⟩, [], 0, none, 0, false⟩ 4 11).2).2
        6 12).2.threads_spawned = 2 := by decide

/-- C6 amended: `start_recording` returns false and changes nothing
(frame buffer, start timestamp, queue binding, thread count) whenever
the transition to Recording is rejected — in particular a second start
issued while still in the Recording state is rejected and spawns no
second capture thread, hence opens no second hardware stream — and an
accepted start clears the frame buffer, records the start timestamp,
binds the queue, spawns one capture thread, and returns true.  However,
a second start from RecordingPaused (after `toggle_pause`, with no
intervening stop) is accepted: it returns true and spawns a second
capture thread, for two spawned capture threads in total. -/
theorem start_recording_behavior :
    (∀ (ap : AudioProcessor) (q : Nat) (now : ℚ),
      (set_state ap.mgr AppState.RECORDING).ok = false →
      start_recording ap q now = (false, ap)) ∧
    (∀ (ap : AudioProcessor) (q : Nat) (now : ℚ),
      (set_state ap.mgr AppState.RECORDING).ok = true →
      (start_recording ap q now).1 = true ∧
      (start_recording ap q now).2.frames = [] ∧
      (start_recording ap q now).2.start_time = now ∧
      (start_recording ap q now).2.audio_queue = some q ∧
      (start_recording ap q now).2.threads_spawned = ap.threads_spawned + 1 ∧
      (start_recording ap q now).2.mgr.current_state = AppState.RECORDING) ∧
    (∀ (ap : AudioProcessor) (q q2 : Nat) (now now2 : ℚ),
      ap.mgr.current_state = AppState.IDLE →
      start_recording (start_recording ap q now).2 q2 now2
        = (false, (start_recording ap q now).2)) ∧
    (∀ (ap : AudioProcessor) (q q2 : Nat) (now now2 : ℚ),
      ap.mgr.current_state = AppState.IDLE →
      (start_recording (toggle_pause (start_recording ap q now).2).2 q2 now2).1
        = true ∧
      (start_recording (toggle_pause (start_recording ap q now).2).2 q2 now2).2.threads_spawned
        = ap.threads_spawned + 2) := by
  refine ⟨?_, ?_, ?_, ?_⟩
  · intro ap q now h
    simp [start_recording, h]
  · intro ap q now h
    have hmem : AppState.RECORDING ∈ validTransitions ap.mgr.current_state := by
      by_contra hmem
      simp [set_state, hmem] at h
    refine ⟨?_, ?_, ?_, ?_, ?_, ?_⟩ <;> simp [start_recording, set_state, hmem]
  · intro ap q q2 now now2 h
    have hstart : start_recording ap q now =
        (true, ⟨{ ap.mgr with current_state := AppState.RECORDING }, [], now,
          some q, ap.threads_spawned + 1, false⟩) := by
      simp [start_recording, set_state, h, validTransitions]
    rw [hstart]
    simp [start_recording, set_state, validTransitions]
  · intro ap q q2 now now2 h
    have hstart : start_recording ap q now =
        (true, ⟨{ ap.mgr with current_state := AppState.RECORDING }, [], now,
          some q, ap.threads_spawned + 1, false⟩) := by
      simp [start_recording, set_state, h, validTransitions]
    rw [hstart]
    rw [toggle_pause_of_recording _ rfl]
    constructor <;>
      simp [start_recording, set_state, validTransitions]

/-- Concrete instantiation of the amended start-recording contract: a
first start from Idle succeeds, an immediate second start is rejected
without spawning another capture thread, and a second start after a
pause is accepted with a second capture thread spawned. -/
theorem start_recording_behavior_witness :
    (start_recording ⟨⟨AppState.IDLE, none⟩, ["old"], 9, none, 0, true⟩ 4 11).1 = true ∧
    (start_recording ⟨⟨AppState.IDLE, none⟩, ["old"], 9, none, 0, true⟩ 4 11).2.frames = [] ∧
    (start_recording ⟨⟨AppState.IDLE, none⟩, ["old"], 9, none, 0, true⟩ 4 11).2.threads_spawned = 1 ∧
    start_recording
        (start_recording ⟨⟨AppState.IDLE, none⟩, ["old"], 9, none, 0, true⟩ 4 11).2 6 12
      = (false, (start_recording ⟨⟨AppState.IDLE, none⟩, ["old"], 9, none, 0, true⟩ 4 11).2) ∧
    (start_recording
        (toggle_pause
          (start_recording ⟨⟨AppState.IDLE, none⟩, ["old"], 9, none, 0, true⟩ 4 11).2).2
        6 12).1 = true ∧
    (start_recording
        (toggle_pause
          (start_recording ⟨⟨AppState.IDLE, none⟩, ["old"], 9, none, 0, true⟩ 4 11).2).2
        6 12).2.threads_spawned = 2 := by
  have h1 := start_recording_behavior.2.1 ⟨⟨AppState.IDLE, none⟩, ["old"], 9, none, 0, true⟩ 4 11
    (by decide)
  have h2 := start_recording_behavior.2.2.1 ⟨⟨AppState.IDLE, none⟩, ["old"], 9, none, 0, true⟩ 4 6 11 12
    rfl
  have h3 := start_recording_behavior.2.2.2 ⟨⟨AppState.IDLE, none⟩, ["old"], 9, none, 0, true⟩ 4 6 11 12
    rfl
  exact ⟨h1.1, h1.2.1, h1.2.2.2.2.1, h2, h3.1, h3.2⟩

/-- Concrete instantiation of the `set_state` discipline: from Idle,
Recording is accepted with a callback invocation, and Playing from
Recording is rejected unchanged. -/
theorem set_state_transition_discipline_witness :
    (set_state ⟨AppState.IDLE, some 7⟩ AppState.RECORDING).ok = true ∧
    (set_state ⟨AppState.IDLE, some 7⟩ AppState.RECORDING).mgr.current_state
      = AppState.RECORDING ∧
    (set_state ⟨AppState.IDLE, some 7⟩ AppState.RECORDING).calls
      = [(7, AppState.IDLE, AppState.RECORDING)] ∧
    (set_state ⟨AppState.RECORDING, some 7⟩ AppState.PLAYING).ok = false ∧
    (set_state ⟨AppState.RECORDING, some 7⟩ AppState.PLAYING).mgr
      = ⟨AppState.RECORDING, some 7⟩ := by
  have h := set_state_transition_discipline
  have haccept := (h.2 ⟨AppState.IDLE, some 7⟩ AppState.RECORDING).2 (by decide)
  have hreject := (h.2 ⟨AppState.RECORDING, some 7⟩ AppState.PLAYING).1 (by decide)
  exact ⟨by decide, haccept.2.1, haccept.2.2.1 7 rfl, by decide, hreject.1⟩

/-- C2: evaluation of `track_processing_time` at a failing input.  After
two tracked calls for the operation `processing` with durations 1 and 2,
the metric `total_processing_time` holds 2 — the last duration, because
the branch for names ending in `_time` shadows the `total_` counter
branch — instead of the sum 3, and `processing_calls` holds 1 — names
ending in `_calls` fall into the plain-overwrite branch — instead of the
call count 2. -/
theorem track_processing_time_shadowed_branches :
    lookupMetric
        (track_processing_time
          (track_processing_time initial_performance_metrics "processing" 1)
          "processing" 2)
        "total_processing_time" = some (MetricVal.num 2) ∧
    lookupMetric
        (track_processing_time
          (track_processing_time initial_performance_metrics "processing" 1)
          "processing" 2)
        "processing_calls" = some (MetricVal.num 1) ∧
    (2 : ℚ) ≠ 1 + 2 ∧ (1 : ℚ) ≠ 2 := by
  refine ⟨by decide, by decide, by norm_num, by norm_num⟩

/-- C3: evaluation of the frame push at a failing input.  On a frame
queue bounded at capacity 1 that already holds a frame, the blocking
`put` of `_record_frame` blocks the producer and never reaches the
drop-with-warning handler (a blocking put raises no `queue.Full`), while
the queue actually constructed by `AppController` is unbounded, so a
push on it merely appends in FIFO order. -/
theorem record_frame_push_blocks_on_full :
    record_frame_push { maxsize := some 1, items := ["frame0"] } "frame1"
      = (PutOutcome.blocked, false) ∧
    app_controller_audio_queue.maxsize = none ∧
    record_frame_push app_controller_audio_queue "frame0"
      = (PutOutcome.enqueued { maxsize := none, items := ["frame0"] }, false) := by
  decide

/-- C8: evaluation of the volume publish at a failing input.  On a
single-slot volume queue already holding a sample, publishing a new one
blocks — `put_nowait` raises `queue.Full` and the handler performs a
blocking `put` instead of discarding the old sample — while the read
side does return the front sample or `none` without blocking. -/
theorem volume_publish_blocks_on_full :
    volume_publish { maxsize := some 1, items := [-20] } (-10) = PutOutcome.blocked ∧
    get_volume_level { maxsize := some 1, items := [] }
      = (none, { maxsize := some 1, items := [] }) ∧
    get_volume_level { maxsize := some 1, items := [-20] }
      = (some (-20), { maxsize := some 1, items := [] }) := by decide

/-- C7 counterexample: with frames `[chunk0, chunk1]` buffered and the
underlying write failing after the first frame, `save_recording` returns
false and emits an error, yet the half-written file is observable at the
original path, holding exactly the first frame. -/
theorem save_recording_partial_artifact :
    (save_recording ["chunk0", "chunk1"] "out.wav"
        (some (SaveFailure.writeFail 1)) []).1 = false ∧
    lookupFile
        (save_recording ["chunk0", "chunk1"] "out.wav"
          (some (SaveFailure.writeFail 1)) []).2.2
        "out.wav" = some ["chunk0"] := by decide

/-- C7 amended: `save_recording` with an empty frame buffer returns
false, emits an error event, and leaves the file system untouched; and
on any write failure the exception is caught, an error event is emitted
and false is returned — but a partially written file may remain under
the original path. -/
theorem save_recording_failure_behavior :
    (∀ (path : String) (failure : Option SaveFailure) (fs : FileSys),
      save_recording [] path failure fs = (false, [Ev.error "No audio to save."], fs)) ∧
    (∀ (frames : List String) (path : String) (f : SaveFailure) (fs : FileSys),
      frames ≠ [] →
      (save_recording frames path (some f) fs).1 = false ∧
      (save_recording frames path (some f) fs).2.1
        = [Ev.error "Error saving recording"]) := by
  constructor
  · intro path failure fs
    simp [save_recording]
  · intro frames path f fs h
    cases f <;> simp [save_recording, h]

/-- Concrete instantiation of the amended save contract: saving with no
frames fails without touching the file system, and an open failure
returns false. -/
theorem save_recording_failure_behavior_witness :
    save_recording [] "out.wav" none [] = (false, [Ev.error "No audio to save."], []) ∧
    (save_recording ["chunk0"] "out.wav" (some SaveFailure.openFail) []).1 = false := by
  exact ⟨save_recording_failure_behavior.1 "out.wav" none [],
    (save_recording_failure_behavior.2 ["chunk0"] "out.wav" SaveFailure.openFail []
      (by decide)).1⟩

theorem sim_finally_not_simulating (m : StateManager) (evs : List Ev) (opened : Bool) :
    (sim_finally m evs opened).mgr.current_state ≠ AppState.SIMULATING := by
  by_cases h : is_simulating m.current_state = true
  · have hs : m.current_state = AppState.SIMULATING := by
      simpa [is_simulating] using h
    simp [sim_finally, set_state, hs, validTransitions, is_simulating]
  · have hs : m.current_state ≠ AppState.SIMULATING := by
      simpa [is_simulating] using h
    simp [sim_finally, h, hs]

theorem countSimEnded_append (a b : List Ev) :
    countSimEnded (a ++ b) = countSimEnded a + countSimEnded b := by
  simp [countSimEnded, List.filter_append]

theorem countSimEnded_nil : countSimEnded [] = 0 := rfl

theorem countSimEnded_transcription_cons (t : String) (evs : List Ev) :
    countSimEnded (Ev.transcription t :: evs) = countSimEnded evs := by
  simp [countSimEnded]

theorem countSimEnded_sim_loop (iters : List SimIter) :
    ∀ m : StateManager, countSimEnded (sim_loop m iters).2.1 = 0 := by
  induction iters with
  | nil => intro m; simp [sim_loop, countSimEnded]
  | cons it rest ih =>
      intro m
      obtain ⟨estop, raises, tr⟩ := it
      cases estop <;> cases raises <;> cases tr <;>
        (simp only [sim_loop]
         repeat' split
         all_goals simp_all [countSimEnded_nil, countSimEnded_transcription_cons])

theorem sim_finally_count (m : StateManager) (evs : List Ev) (opened : Bool) :
    countSimEnded (sim_finally m evs opened).events = countSimEnded evs + 1 := by
  simp [sim_finally, countSimEnded_append, countSimEnded]

theorem sim_finally_file (m : StateManager) (evs : List Ev) (opened : Bool) :
    (sim_finally m evs opened).fileClosed = (sim_finally m evs opened).fileOpened := rfl

/-- C4: every run of the simulation thread — whatever the schedule of
chunks, external stops and exceptions, and whether the preparation
itself raises — ends with a state that is not Simulating, emits the
terminal simulation-ended notification exactly once, and closes the file
handle whenever one was opened. -/
theorem simulate_audio_thread_teardown (m : StateManager) (prepFails : Bool)
    (iters : List SimIter) :
    (simulate_audio_thread m prepFails iters).mgr.current_state ≠ AppState.SIMULATING ∧
    countSimEnded (simulate_audio_thread m prepFails iters).events = 1 ∧
    ((simulate_audio_thread m prepFails iters).fileOpened = true →
      (simulate_audio_thread m prepFails iters).fileClosed = true) := by
  unfold simulate_audio_thread
  cases prepFails with
  | true =>
      rw [if_pos rfl]
      refine ⟨sim_finally_not_simulating _ _ _, ?_, ?_⟩
      · rw [sim_finally_count]
        decide
      · intro h
        rw [sim_finally_file]
        exact h
  | false =>
      simp only [Bool.false_eq_true, if_false]
      split
      · refine ⟨sim_finally_not_simulating _ _ _, ?_, ?_⟩
        · rw [sim_finally_count, countSimEnded_append, countSimEnded_append,
            countSimEnded_sim_loop iters m]
          decide
        · intro h
          rw [sim_finally_file]
          exact h
      · refine ⟨sim_finally_not_simulating _ _ _, ?_, ?_⟩
        · rw [sim_finally_count, countSimEnded_append, countSimEnded_append,
            countSimEnded_sim_loop iters m]
          have hdone : countSimEnded
              (if is_simulating (sim_loop m iters).1.current_state = true
               then [Ev.status "Simulation completed."] else []) = 0 := by
            split <;> decide
          rw [hdone]
          decide
        · intro h
          rw [sim_finally_file]
          exact h

/-- Concrete instantiation of the simulation teardown: a run from
Simulating over one transcript-bearing chunk ends Idle, emits exactly
one terminal notification, and closes the file it opened. -/
theorem simulate_audio_thread_teardown_witness :
    (simulate_audio_thread ⟨AppState.SIMULATING, none⟩ false
        [⟨false, false, some "hello"⟩]).mgr.current_state ≠ AppState.SIMULATING ∧
    countSimEnded (simulate_audio_thread ⟨AppState.SIMULATING, none⟩ false
        [⟨false, false, some "hello"⟩]).events = 1 ∧
    (simulate_audio_thread ⟨AppState.SIMULATING, none⟩ false
        [⟨false, false, some "hello"⟩]).fileClosed = true := by
  have h := simulate_audio_thread_teardown ⟨AppState.SIMULATING, none⟩ false
    [⟨false, false, some "hello"⟩]
  exact ⟨h.1, h.2.1, h.2.2 rfl⟩

theorem callbacksFor_emitter_on (l : Listeners) (n name : String) (cb : Nat) :
    callbacksFor (emitter_on l n cb) name
      = callbacksFor l name ++ (if n = name then [cb] else []) := by
  induction l with
  | nil =>
      by_cases h : n = name <;>
        simp [emitter_on, callbacksFor, lookupListeners, h]
  | cons hd rest ih =>
      obtain ⟨hn, hcbs⟩ := hd
      by_cases h1 : hn = n
      · subst h1
        by_cases h2 : hn = name
        · subst h2
          simp [emitter_on, callbacksFor, lookupListeners]
        · simp [emitter_on, callbacksFor, lookupListeners, h2]
      · by_cases h2 : hn = name
        · subst h2
          have h3 : n ≠ hn := fun e => h1 e.symm
          simp [emitter_on, callbacksFor, lookupListeners, h1, h3]
        · simpa [emitter_on, callbacksFor, lookupListeners, h1, h2] using ih

theorem callbacksFor_foldl_on (regs : List (String × Nat)) :
    ∀ (l : Listeners) (name : String),
      callbacksFor (regs.foldl (fun l r => emitter_on l r.1 r.2) l) name
        = callbacksFor l name ++ (regs.filter (fun r => r.1 == name)).map Prod.snd := by
  induction regs with
  | nil => intro l name; simp
  | cons r rest ih =>
      intro l name
      simp only [List.foldl_cons, List.filter_cons]
      rw [ih, callbacksFor_emitter_on]
      by_cases h : r.1 = name
      · simp [h]
      · simp [h]

theorem emitter_emit_callbacks {A : Type} (l : Listeners) (event_name : String)
    (args : A) :
    emitter_emit l event_name args
      = (l, (callbacksFor l event_name).map (fun cb => (cb, args))) := by
  unfold emitter_emit callbacksFor
  cases lookupListeners l event_name <;> simp

/-- C10: `emit` on a listener map built by any sequence of `on`
registrations invokes exactly the callbacks registered for the emitted
event name, each once, in registration order, passing the arguments
through unchanged; its first component shows the listener map is never
mutated, and an event name with no registered listeners produces no
invocation and no error. -/
theorem emitter_emit_exact :
    (∀ (A : Type) (regs : List (String × Nat)) (event_name : String) (args : A),
      emitter_emit (registerAll regs) event_name args
        = (registerAll regs,
            (regs.filter (fun r => r.1 == event_name)).map (fun r => (r.2, args)))) ∧
    (∀ (A : Type) (l : Listeners) (event_name : String) (args : A),
      (emitter_emit l event_name args).1 = l) ∧
    (∀ (A : Type) (l : Listeners) (event_name : String) (args : A),
      lookupListeners l event_name = none →
      (emitter_emit l event_name args).2 = []) := by
  refine ⟨?_, ?_, ?_⟩
  · intro A regs event_name args
    rw [emitter_emit_callbacks]
    rw [show registerAll regs = regs.foldl (fun l r => emitter_on l r.1 r.2) [] from rfl,
      callbacksFor_foldl_on regs [] event_name]
    simp [callbacksFor, lookupListeners, List.map_map]
  · intro A l event_name args
    rw [emitter_emit_callbacks]
  · intro A l event_name args h
    unfold emitter_emit
    rw [h]

/-- Concrete instantiation of the emit contract: with two callbacks
registered for the error event around one for another event, emitting
the error event invokes exactly those two in order with the argument,
and emitting on an empty listener map invokes nothing. -/
theorem emitter_emit_exact_witness :
    emitter_emit (registerAll [("error", 1), ("update_status", 2), ("error", 3)])
        "error" (42 : Nat)
      = (registerAll [("error", 1), ("update_status", 2), ("error", 3)],
          [(1, 42), (3, 42)]) ∧
    (emitter_emit ([] : Listeners) "simulation_ended" (0 : Nat)).2 = [] := by
  constructor
  · have h := emitter_emit_exact.1 Nat [("error", 1), ("update_status", 2), ("error", 3)]
      "error" 42
    rw [h]
    rfl
  · exact emitter_emit_exact.2.2 Nat [] "simulation_ended" 0 rfl
